import Mathlib

/-!
Shallow embedding of the `scanner` repository (src/main.py, src/processing.py).

Images are modelled as 2-D grids of natural-number samples (8-bit in intent);
a raster is either single-channel (`GrayImg`, a 2-D numpy array) or
3-channel (`ColorImg`, an (h, w, 3) numpy array).  Exceptions raised by the
Python code are modelled with `Except PyErr`.  OpenCV / skimage primitives
whose numerics are irrelevant to the claims (Gaussian blur, Canny, contour
extraction, contour area/perimeter, polygon approximation, the Sauvola
threshold surface, homography computation and warping) are abstracted as
parameters; everything the claims inspect (control flow, thresholds,
comparisons, ordering rules, morphology, list operations) is embedded
concretely from the source.
-/

namespace Scanner

/-- Errors a Python call can raise in this program: `IndexError` from list
indexing, `cv2.error` from OpenCV assertions, `ValueError` from
`fix_perspective`. -/
inductive PyErr where
  | indexError : PyErr
  | cvError (msg : String) : PyErr
  | valueError (msg : String) : PyErr
deriving DecidableEq

/-- A single-channel raster: a 2-D numpy array of 8-bit samples.  `pix` is
total; only indices below `height`/`width` are meaningful. -/
structure GrayImg where
  height : Nat
  width : Nat
  pix : Nat → Nat → Nat

/-- A 3-channel (BGR or RGB) raster: an (height, width, 3) numpy array. -/
structure ColorImg where
  height : Nat
  width : Nat
  pix : Nat → Nat → Fin 3 → Nat

/-- A decoded raster image: per the data model, a 2-D grid of unsigned 8-bit
samples that is only optionally 3-channel. -/
inductive Image where
  | gray (g : GrayImg) : Image
  | color (c : ColorImg) : Image

/-- Spatial height of an image (`img.shape[0]`). -/
def Image.hgt : Image → Nat
  | .gray g => g.height
  | .color c => c.height

/-- Spatial width of an image (`img.shape[1]`). -/
def Image.wdt : Image → Nat
  | .gray g => g.width
  | .color c => c.width

/-- Whether `len(image.shape) == 3`, i.e. the array has a channel axis. -/
def Image.isColor : Image → Bool
  | .gray _ => false
  | .color _ => true

/-- Result classifier for `Except` values: `true` on `.ok`. -/
def exOk : Except PyErr α → Bool
  | .ok _ => true
  | .error _ => false

/-! ## Python list primitives (for src/main.py lines 61-85)

Python list indexing resolves negative indices against the length and raises
`IndexError` when the resolved index is out of range. -/

/-- Resolve a Python list index against a length: negative indices count from
the end; out-of-range resolution yields `none` (an `IndexError`). -/
def pyIndex (len : Nat) (i : Int) : Option Nat :=
  let j : Int := if i < 0 then i + len else i
  if 0 ≤ j ∧ j < len then some j.toNat else none

/-- Python `lst[i]` (read). -/
def pyGet (lst : List α) (i : Int) : Except PyErr α :=
  match pyIndex lst.length i with
  | some n =>
    match lst.get? n with
    | some v => .ok v
    | none => .error .indexError
  | none => .error .indexError

/-- Python `lst[i] = v` (write). -/
def pySet (lst : List α) (i : Int) (v : α) : Except PyErr (List α) :=
  match pyIndex lst.length i with
  | some n => .ok (lst.set n v)
  | none => .error .indexError

/-- Swap of the adjacent positions `k` and `k+1` of a list, the intended
effect of the reorder buttons; identity when either position is absent. -/
def swapAdj (lst : List α) (k : Nat) : List α :=
  match lst.get? k, lst.get? (k + 1) with
  | some x, some y => (lst.set k y).set (k + 1) x
  | _, _ => lst

/-- src/main.py lines 61-68, `move_image_up`: when `index > 0`, performs the
Python tuple assignment
`image_list[index], image_list[index - 1] = image_list[index - 1], image_list[index]`
(right-hand side read first, then the two writes); otherwise returns the
list unchanged. -/
def move_image_up (image_list : List α) (index : Int) : Except PyErr (List α) :=
  if index > 0 then do
    let a ← pyGet image_list (index - 1)
    let b ← pyGet image_list index
    let l1 ← pySet image_list index a
    pySet l1 (index - 1) b
  else .ok image_list

/-- src/main.py lines 70-77, `move_image_down`: when `index < len - 1`,
performs the Python tuple assignment
`image_list[index], image_list[index + 1] = image_list[index + 1], image_list[index]`;
otherwise returns the list unchanged. -/
def move_image_down (image_list : List α) (index : Int) : Except PyErr (List α) :=
  if index < (image_list.length : Int) - 1 then do
    let a ← pyGet image_list (index + 1)
    let b ← pyGet image_list index
    let l1 ← pySet image_list index a
    pySet l1 (index + 1) b
  else .ok image_list

/-- src/main.py lines 79-85, `remove_image`: `image_list.pop(index)` guarded
by `0 <= index < len(image_list)`; the guard makes the pop safe, so this
never raises. -/
def remove_image (image_list : List α) (index : Int) : Except PyErr (List α) :=
  if 0 ≤ index ∧ index < (image_list.length : Int) then
    .ok (image_list.eraseIdx index.toNat)
  else .ok image_list

/-! ## OpenCV colour conversion (cv2.cvtColor)

`cv2.cvtColor(img, COLOR_BGR2GRAY)` and `cv2.cvtColor(img, COLOR_RGB2BGR)`
require a 3-channel input and raise `cv2.error` ("Invalid number of
channels") on a 2-D array; on 3-channel input BGR2GRAY takes the usual
weighted luma (0.299 R + 0.587 G + 0.114 B, rounded) and RGB2BGR reverses
the channel order. -/

/-- Luma of one BGR pixel, rounded to the nearest 8-bit value. -/
def bgrLuma (b g r : Nat) : Nat := (299 * r + 587 * g + 114 * b + 500) / 1000

/-- BGR-to-grayscale conversion of a 3-channel raster (channel 0 = B,
1 = G, 2 = R). -/
def bgrToGray (c : ColorImg) : GrayImg :=
  ⟨c.height, c.width, fun x y => bgrLuma (c.pix x y 0) (c.pix x y 1) (c.pix x y 2)⟩

/-- `cv2.cvtColor(img, cv2.COLOR_BGR2GRAY)`: raises on a 2-D input. -/
def cvtColor_BGR2GRAY : Image → Except PyErr GrayImg
  | .color c => .ok (bgrToGray c)
  | .gray _ => .error (.cvError ("Invalid number of channels in input image"))

/-- `cv2.cvtColor(img, cv2.COLOR_RGB2BGR)`: reverses the channel order;
raises on a 2-D input. -/
def cvtColor_RGB2BGR : Image → Except PyErr ColorImg
  | .color c => .ok ⟨c.height, c.width, fun x y ch => c.pix x y ⟨2 - ch.val, by omega⟩⟩
  | .gray _ => .error (.cvError ("Invalid number of channels in input image"))

/-! ## Corner detection (src/processing.py lines 8-30) -/

/-- A contour as produced by `cv2.findContours`: an ordered sequence of
boundary points.  Its area/perimeter are computed by the (abstracted)
OpenCV routines below. -/
structure Contour where
  pts : List (Int × Int)

/-- A 3x3 perspective-transform matrix (`cv2.getPerspectiveTransform`
output). -/
def PMatrix := Fin 3 → Fin 3 → ℚ

/-- A pixel-space point. -/
abbrev Pt := Int × Int

/-- A quadrilateral: exactly 4 corner points, as the `(4, 2)` array returned
by `approx.reshape(4, 2)`. -/
abbrev Quad := Fin 4 → Pt

/-- The ordered quadrilateral built by `fix_perspective` (rows 0-3 of
`ordered_corners`). -/
structure OrderedQuad where
  top_left : Pt
  top_right : Pt
  bottom_right : Pt
  bottom_left : Pt
deriving DecidableEq

/-- Numeric OpenCV primitives that the claims treat as black boxes; the
pipeline logic is stated for every possible behaviour of these. -/
structure CVOps where
  gaussianBlur : Nat → Nat → ℚ → GrayImg → GrayImg
  canny : GrayImg → ℚ → ℚ → GrayImg
  findContours : GrayImg → List Contour
  contourArea : Contour → ℚ
  arcLength : Contour → Bool → ℚ
  approxPolyDP : Contour → ℚ → Bool → List Pt
  getPerspectiveTransform : OrderedQuad → OrderedQuad → PMatrix
  warpPerspective : Image → PMatrix → Nat × Nat → Image

/-- View a list of 4 points as a `Quad` (`approx.reshape(4, 2)`). -/
def reshape (l : List Pt) : Quad := fun i => l.getD i.val (0, 0)

/-- src/processing.py lines 20-29: the `for c in contours` loop with its
`continue` guards — skip a contour when its area is below `minArea`, skip
when its perimeter is below 100, and return the simplified polygon of the
first contour whose approximation at tolerance `0.02 * peri` has exactly 4
vertices. -/
def scanCandidates (cv : CVOps) (minArea : ℚ) : List Contour → Option Quad
  | [] => none
  | c :: rest =>
    if cv.contourArea c < minArea then scanCandidates cv minArea rest
    else
      let peri := cv.arcLength c true
      if peri < 100 then scanCandidates cv minArea rest
      else
        let approx := cv.approxPolyDP c (0.02 * peri) true
        if approx.length = 4 then some (reshape approx) else scanCandidates cv minArea rest

/-- src/processing.py lines 8-30, `find_document_corners`: grayscale (which
raises on 2-D input), 5x5 Gaussian blur with sigma 0, Canny 70/150, all
contours sorted by area descending and truncated to the 6 largest, then the
candidate loop. -/
def find_document_corners (cv : CVOps) (img : Image) : Except PyErr (Option Quad) := do
  let height := img.hgt
  let width := img.wdt
  let imageArea := height * width
  let minArea : ℚ := (imageArea : ℚ) * 0.1
  let gray ← cvtColor_BGR2GRAY img
  let blurred := cv.gaussianBlur 5 5 0 gray
  let edged := cv.canny blurred 70 150
  let contours :=
    ((cv.findContours edged).mergeSort
      (fun a b => decide (cv.contourArea b ≤ cv.contourArea a))).take 6
  return scanCandidates cv minArea contours

/-! ## Perspective rectification (src/processing.py lines 32-65) -/

/-- First index of the minimum of four values, as `np.argmin` computes it. -/
def argmin4 (f : Fin 4 → Int) : Fin 4 :=
  if f 0 ≤ f 1 ∧ f 0 ≤ f 2 ∧ f 0 ≤ f 3 then 0
  else if f 1 ≤ f 2 ∧ f 1 ≤ f 3 then 1
  else if f 2 ≤ f 3 then 2
  else 3

/-- First index of the maximum of four values, as `np.argmax` computes it. -/
def argmax4 (f : Fin 4 → Int) : Fin 4 :=
  if f 1 ≤ f 0 ∧ f 2 ≤ f 0 ∧ f 3 ≤ f 0 then 0
  else if f 2 ≤ f 1 ∧ f 3 ≤ f 1 then 1
  else if f 3 ≤ f 2 then 2
  else 3

/-- `corners.sum(axis=1)` of one point: x + y. -/
def cornerSum (p : Pt) : Int := p.1 + p.2

/-- `np.diff(corners, axis=1)` of one point: the second coordinate minus the
first, i.e. y - x. -/
def cornerDiff (p : Pt) : Int := p.2 - p.1

/-- src/processing.py lines 33-42: `ordered_corners` — row 0 (top-left) is
the point of smallest coordinate sum, row 2 (bottom-right) the point of
largest sum, row 1 (top-right) the point of smallest `np.diff` value y - x,
row 3 (bottom-left) the point of largest y - x. -/
def order_corners (corners : Quad) : OrderedQuad :=
  { top_left := corners (argmin4 (fun i => cornerSum (corners i)))
    top_right := corners (argmin4 (fun i => cornerDiff (corners i)))
    bottom_right := corners (argmax4 (fun i => cornerSum (corners i)))
    bottom_left := corners (argmax4 (fun i => cornerDiff (corners i))) }

/-- Bounded iteration of the integer Newton step for square roots; the step
count only bounds the loop, which stops as soon as the guess stops
decreasing. -/
def isqrtGo (n : Nat) : Nat → Nat → Nat
  | 0, guess => guess
  | fuel + 1, guess =>
    let next := (guess + n / guess) / 2
    if next < guess then isqrtGo n fuel next else guess

/-- Floor integer square root (the value of `int(np.sqrt(n))` for a natural
number `n`), computed by Newton iteration from the initial guess `n / 2`. -/
def isqrt (n : Nat) : Nat :=
  if n ≤ 1 then n else isqrtGo n n (n / 2)

/-- `int(np.sqrt((px - qx) ** 2 + (py - qy) ** 2))`: the truncated Euclidean
distance between two points. -/
def ilen (p q : Pt) : Nat := isqrt ((p.1 - q.1) ^ 2 + (p.2 - q.2) ^ 2).toNat

/-- Target width per the spec's words: the larger of the truncated
bottom-edge and top-edge lengths of the ordered quadrilateral. -/
def maxWidthOf (o : OrderedQuad) : Nat :=
  max (ilen o.bottom_right o.bottom_left) (ilen o.top_right o.top_left)

/-- Target height per the spec's words: the larger of the truncated
right-edge and left-edge lengths of the ordered quadrilateral. -/
def maxHeightOf (o : OrderedQuad) : Nat :=
  max (ilen o.top_right o.bottom_right) (ilen o.top_left o.bottom_left)

/-- src/processing.py lines 32-65, `fix_perspective`: order the corners,
compute `max_width`/`max_height` as the larger truncated edge lengths, raise
`ValueError` when either is below 50, otherwise warp the image onto the
`(max_width, max_height)` rectangle via the homography between the ordered
corners and the destination rectangle. -/
def fix_perspective (cv : CVOps) (img : Image) (corners : Quad) : Except PyErr Image :=
  let oc := order_corners corners
  let max_width := max (ilen oc.bottom_right oc.bottom_left) (ilen oc.top_right oc.top_left)
  let max_height := max (ilen oc.top_right oc.bottom_right) (ilen oc.top_left oc.bottom_left)
  if max_width < 50 ∨ max_height < 50 then
    .error (.valueError ("Calculated dimensions too small"))
  else
    let destination_corners : OrderedQuad :=
      { top_left := (0, 0)
        top_right := ((max_width : Int) - 1, 0)
        bottom_right := ((max_width : Int) - 1, (max_height : Int) - 1)
        bottom_left := (0, (max_height : Int) - 1) }
    let transform_matrix := cv.getPerspectiveTransform oc destination_corners
    .ok (cv.warpPerspective img transform_matrix (max_width, max_height))

/-! ## Page cleaning (src/processing.py lines 68-93) -/

/-- `gray = cv2.cvtColor(image, COLOR_BGR2GRAY) if len(image.shape) == 3
else image`: the guarded grayscale conversion shared by `clean_up_image`
and the basic fallback in `process_image`. -/
def toGrayIfColor : Image → GrayImg
  | .color c => bgrToGray c
  | .gray g => g

/-- `skimage.img_as_ubyte` applied to a boolean array: `True` becomes 255,
`False` becomes 0. -/
def img_as_ubyte (h w : Nat) (b : Nat → Nat → Bool) : GrayImg :=
  ⟨h, w, fun x y => if b x y then 255 else 0⟩

/-- `255 - img` on an 8-bit raster. -/
def invertImg (g : GrayImg) : GrayImg :=
  ⟨g.height, g.width, fun x y => 255 - g.pix x y⟩

/-- In-range row/column positions `{i - 1, i}` of the 2x2 erosion window
(anchor at the kernel's lower-right cell; out-of-range neighbours are
ignored, OpenCV's +infinity constant border for erosion). -/
def wlo : Nat → List Nat
  | 0 => [0]
  | n + 1 => [n, n + 1]

/-- In-range row/column positions `{i, i + 1}` of the 2x2 dilation window
(the kernel is reflected for dilation; out-of-range neighbours are ignored,
OpenCV's -infinity constant border for dilation). -/
def whi (n bound : Nat) : List Nat :=
  if n + 1 < bound then [n, n + 1] else [n]

/-- `cv2.erode` with a 2x2 all-ones kernel, one iteration: each output
sample is the minimum of the input over the window. -/
def erode2 (g : GrayImg) : GrayImg :=
  ⟨g.height, g.width, fun x y =>
    (wlo x).foldl (fun m a => (wlo y).foldl (fun n b => min n (g.pix a b)) m) 255⟩

/-- `cv2.dilate` with a 2x2 all-ones kernel, one iteration: each output
sample is the maximum of the input over the (reflected) window. -/
def dilate2 (g : GrayImg) : GrayImg :=
  ⟨g.height, g.width, fun x y =>
    (whi x g.height).foldl (fun m a => (whi y g.width).foldl (fun n b => max n (g.pix a b)) m) 0⟩

/-- src/processing.py lines 68-93, `clean_up_image`, parameterised by the
(abstracted) `skimage.filters.threshold_sauvola` surface, taken as a map
from the window size and the grayscale image to a per-pixel threshold:
grayscale if 3-channel, Sauvola threshold with `window_size=25`, `binary =
gray > thresh`, `img_as_ubyte`, invert, erode 2x2, dilate 2x2, invert
back. -/
def clean_up_image (sauvola : Nat → GrayImg → Nat → Nat → ℚ) (image : Image) : GrayImg :=
  let gray := toGrayIfColor image
  let thresh := sauvola 25 gray
  let binary : Nat → Nat → Bool := fun x y => decide ((gray.pix x y : ℚ) > thresh x y)
  let output := img_as_ubyte gray.height gray.width binary
  let inverse := invertImg output
  let erode := erode2 inverse
  let dilate := dilate2 erode
  invertImg dilate

/-! ## The orchestrator (src/processing.py lines 95-125)

The Python orchestrator wraps each stage in `try/except Exception`; the
stages are library-backed and may fail in ways outside any numeric model,
so the orchestrator is stated over arbitrary stage behaviours.  The
`st.success` / `st.warning` / `st.info` notifications are a UI side channel
with no control-flow effect and are not modelled. -/

/-- The three core-stage behaviours `process_image` sequences: corner
detection (4 points or not-found, or an exception), rectification (a new
image or an exception) and cleaning (a single-channel image or an
exception). -/
structure Stages where
  detect : ColorImg → Except PyErr (Option Quad)
  rectify : ColorImg → Quad → Except PyErr Image
  clean : Image → Except PyErr GrayImg

/-- src/processing.py lines 95-125, `process_image`: convert the input from
RGB to BGR (line 96 — outside every `try` block), detect corners with
fallback to the original on exception or not-found, rectify with fallback
to the pre-rectification image on exception, clean with fallback to plain
grayscale conversion (pass-through when already single-channel). -/
def process_image (s : Stages) (image : Image) : Except PyErr GrayImg := do
  let img ← cvtColor_RGB2BGR image
  let corrected_image : Image :=
    match s.detect img with
    | .ok (some corners) =>
      match s.rectify img corners with
      | .ok corrected => corrected
      | .error _ => .color img
    | .ok none => .color img
    | .error _ => .color img
  let final_image : GrayImg :=
    match s.clean corrected_image with
    | .ok f => f
    | .error _ => toGrayIfColor corrected_image
  return final_image

/-! ## Spec-side definitions

The following definitions transcribe the specification's own wording of the
algorithms, to be compared with the source-side definitions above. -/

/-- Acceptance test for one contour candidate, as the spec words it:
enclosed area at least `minArea`, perimeter at least 100 pixels, and the
polygon approximation at tolerance 2% of the perimeter has exactly 4
vertices. -/
def acceptableContour (cv : CVOps) (minArea : ℚ) (c : Contour) : Bool :=
  decide (minArea ≤ cv.contourArea c) &&
  decide ((100 : ℚ) ≤ cv.arcLength c true) &&
  ((cv.approxPolyDP c (0.02 * cv.arcLength c true) true).length == 4)

/-- The Corner Detector as the spec describes it (section 4.1): grayscale,
5x5 Gaussian blur with sigma derived from the kernel (0), Canny 70/150,
contours sorted by enclosed area descending with only the 6 largest kept,
and the first acceptable candidate's simplified polygon, else not found. -/
def detectSpec (cv : CVOps) (c : ColorImg) : Option Quad :=
  let minArea : ℚ := ((c.height * c.width : Nat) : ℚ) * 0.1
  let gray := bgrToGray c
  let edged := cv.canny (cv.gaussianBlur 5 5 0 gray) 70 150
  let candidates :=
    ((cv.findContours edged).mergeSort
      (fun a b => decide (cv.contourArea b ≤ cv.contourArea a))).take 6
  (candidates.find? (acceptableContour cv minArea)).map
    (fun ct => reshape (cv.approxPolyDP ct (0.02 * cv.arcLength ct true) true))

/-- The Page Cleaner as the spec describes it (section 4.3): grayscale if
multi-channel; each pixel becomes foreground (255) exactly when its
intensity exceeds the local Sauvola threshold over a 25x25 window, else
background (0); then invert, open (erode then dilate with the 2x2 all-ones
element, one iteration each) and invert back. -/
def cleanerSpec (sauvola : Nat → GrayImg → Nat → Nat → ℚ) (image : Image) : GrayImg :=
  let gray := toGrayIfColor image
  let binarized : GrayImg :=
    ⟨gray.height, gray.width, fun x y =>
      if (gray.pix x y : ℚ) > sauvola 25 gray x y then 255 else 0⟩
  let opened := dilate2 (erode2 (invertImg binarized))
  invertImg opened

/-- Corner ordering as claim C3 words it: top-left minimises x + y,
bottom-right maximises x + y, top-right minimises x - y, bottom-left
maximises x - y. -/
def orderClaimedC3 (corners : Quad) : OrderedQuad :=
  { top_left := corners (argmin4 (fun i => cornerSum (corners i)))
    top_right := corners (argmin4 (fun i => (corners i).1 - (corners i).2))
    bottom_right := corners (argmax4 (fun i => cornerSum (corners i)))
    bottom_left := corners (argmax4 (fun i => (corners i).1 - (corners i).2)) }

/-- The 4 points of a quadrilateral all lie on one line: every pair of
difference vectors from one corner to the others has zero cross product. -/
def CollinearPts (c : Quad) : Prop :=
  ∀ i j k : Fin 4,
    (c j - c i).1 * (c k - c i).2 - (c j - c i).2 * (c k - c i).1 = 0

instance (c : Quad) : Decidable (CollinearPts c) := by
  unfold CollinearPts; infer_instance

/-- The first minimum of `f` is strict: every other index carries a strictly
larger value. -/
def UniqueMin (f : Fin 4 → Int) : Prop :=
  ∀ j, j ≠ argmin4 f → f (argmin4 f) < f j

/-- The first maximum of `f` is strict: every other index carries a strictly
smaller value. -/
def UniqueMax (f : Fin 4 → Int) : Prop :=
  ∀ j, j ≠ argmax4 f → f j < f (argmax4 f)

instance (f : Fin 4 → Int) : Decidable (UniqueMin f) := by
  unfold UniqueMin; infer_instance

instance (f : Fin 4 → Int) : Decidable (UniqueMax f) := by
  unfold UniqueMax; infer_instance

/-- The coordinate sums and the coordinate differences of a quadrilateral
each attain their minimum and maximum at a single corner. -/
def StrictExtremes (c : Quad) : Prop :=
  UniqueMin (fun i => cornerSum (c i)) ∧ UniqueMax (fun i => cornerSum (c i)) ∧
  UniqueMin (fun i => cornerDiff (c i)) ∧ UniqueMax (fun i => cornerDiff (c i))

instance (c : Quad) : Decidable (StrictExtremes c) := by
  unfold StrictExtremes; infer_instance

/-! ## Concrete fixtures used in counterexamples and witnesses -/

/-- A 1x1 single-channel raster (a grayscale upload). -/
def gray1 : GrayImg := ⟨1, 1, fun _ _ => 0⟩

/-- Inert numeric primitives, enough to evaluate the embedded pipeline at
concrete inputs. -/
def trivialCV : CVOps :=
  { gaussianBlur := fun _ _ _ g => g
    canny := fun g _ _ => g
    findContours := fun _ => []
    contourArea := fun _ => 0
    arcLength := fun _ _ => 0
    approxPolyDP := fun _ _ _ => []
    getPerspectiveTransform := fun _ _ => fun _ _ => 0
    warpPerspective := fun i _ _ => i }

/-- Inert stage behaviours for evaluating `process_image` at concrete
inputs. -/
def trivialStages : Stages :=
  { detect := fun _ => .ok none
    rectify := fun i _ => .ok (.color i)
    clean := fun _ => .ok gray1 }

/-- An axis-aligned 100x100 square, corner list in the order a contour scan
produces. -/
def squareQuad : Quad := reshape [(0, 0), (100, 0), (100, 100), (0, 100)]

/-- Four collinear points spread along the main diagonal. -/
def diagQuad : Quad := reshape [(0, 0), (100, 100), (200, 200), (300, 300)]

/-- A diamond (a square rotated 45 degrees): its corner sums tie pairwise,
as do its corner differences. -/
def diamondQuad : Quad := reshape [(0, 50), (50, 0), (100, 50), (50, 100)]

/-- A generic quadrilateral whose corner sums and differences are pairwise
distinct. -/
def genericQuad : Quad := reshape [(0, 0), (99, 1), (100, 103), (1, 100)]

/-! ## Helper lemmas about np.argmin / np.argmax over four values -/

theorem argmin4_le (f : Fin 4 → Int) (i : Fin 4) : f (argmin4 f) ≤ f i := by
  unfold argmin4
  split_ifs with h1 h2 h3 <;> fin_cases i <;> simp_all <;> omega

theorem argmax4_ge (f : Fin 4 → Int) (i : Fin 4) : f i ≤ f (argmax4 f) := by
  unfold argmax4
  split_ifs with h1 h2 h3 <;> fin_cases i <;> simp_all <;> omega

theorem argmin4_perm (f : Fin 4 → Int) (σ : Equiv.Perm (Fin 4)) (h : UniqueMin f) :
    σ (argmin4 (fun i => f (σ i))) = argmin4 f := by
  by_contra hne
  have h1 : f (σ (argmin4 (fun i => f (σ i)))) ≤ f (argmin4 f) := by
    have h2 := argmin4_le (fun i => f (σ i)) (σ.symm (argmin4 f))
    simpa using h2
  exact absurd h1 (not_le.2 (h _ hne))

theorem argmax4_perm (f : Fin 4 → Int) (σ : Equiv.Perm (Fin 4)) (h : UniqueMax f) :
    σ (argmax4 (fun i => f (σ i))) = argmax4 f := by
  by_contra hne
  have h1 : f (argmax4 f) ≤ f (σ (argmax4 (fun i => f (σ i)))) := by
    have h2 := argmax4_ge (fun i => f (σ i)) (σ.symm (argmax4 f))
    simpa using h2
  exact absurd h1 (not_le.2 (h _ hne))

/-! ## Claim C3: the corner-ordering rule -/

/-- C3 counterexample: on an axis-aligned square given in contour order, the
ordering the claim describes (top-right minimises x - y) picks a different
quadrilateral than the code, whose `np.diff` row is y - x: the code's
top-right slot gets (100, 0) while the point minimising x - y is (0, 100). -/
theorem orderClaimedC3_ne_order_corners :
    orderClaimedC3 squareQuad ≠ order_corners squareQuad := by
  decide

/-- C3 (amended): `fix_perspective` assigns top-left to a point minimising
x + y, bottom-right to a point maximising x + y, top-right to a point
minimising y - x (equivalently, maximising x - y), and bottom-left to a
point maximising y - x. -/
theorem order_corners_extremal (c : Quad) :
    (∃ i, (order_corners c).top_left = c i ∧ ∀ j, cornerSum (c i) ≤ cornerSum (c j)) ∧
    (∃ i, (order_corners c).top_right = c i ∧ ∀ j, cornerDiff (c i) ≤ cornerDiff (c j)) ∧
    (∃ i, (order_corners c).bottom_right = c i ∧ ∀ j, cornerSum (c j) ≤ cornerSum (c i)) ∧
    (∃ i, (order_corners c).bottom_left = c i ∧ ∀ j, cornerDiff (c j) ≤ cornerDiff (c i)) := by
  exact ⟨⟨_, rfl, fun j => argmin4_le (fun i => cornerSum (c i)) j⟩,
    ⟨_, rfl, fun j => argmin4_le (fun i => cornerDiff (c i)) j⟩,
    ⟨_, rfl, fun j => argmax4_ge (fun i => cornerSum (c i)) j⟩,
    ⟨_, rfl, fun j => argmax4_ge (fun i => cornerDiff (c i)) j⟩⟩

/-! ## Claim C4: when the rectifier raises -/

/-- C4 (amended): `fix_perspective` raises its validation error exactly when
the computed target width or target height falls below 50 pixels. -/
theorem fix_perspective_valueError_iff (cv : CVOps) (img : Image) (corners : Quad) :
    exOk (fix_perspective cv img corners) = false ↔
      maxWidthOf (order_corners corners) < 50 ∨ maxHeightOf (order_corners corners) < 50 := by
  unfold fix_perspective maxWidthOf maxHeightOf
  dsimp only
  split_ifs with h
  · simpa [exOk] using h
  · simpa [exOk] using h

/-- C4 counterexample: four collinear points along the main diagonal are
accepted — the computed target dimensions are 424 x 424, so no validation
error is raised even though the corners are collinear. -/
theorem fix_perspective_collinear_ok :
    CollinearPts diagQuad ∧
      exOk (fix_perspective trivialCV (Image.gray gray1) diagQuad) = true := by
  exact ⟨by decide, by decide⟩

/-! ## Claim C7: permutation invariance of the ordering -/

/-- C7 counterexample: for a diamond-shaped quadrilateral the corner sums
tie pairwise, so `np.argmin` tie-breaking by first index makes the ordered
assignment depend on the input order — swapping the first two points
changes the output. -/
theorem order_corners_perm_dependent :
    order_corners (fun i => diamondQuad ((Equiv.swap 0 1) i)) ≠ order_corners diamondQuad := by
  decide

/-- C7 (amended): whenever the corner sums and corner differences attain
their extremes at unique corners, permuting the 4 input points does not
change the ordered top-left/top-right/bottom-right/bottom-left assignment,
hence not the output image either. -/
theorem order_corners_perm_invariant (c : Quad) (σ : Equiv.Perm (Fin 4))
    (h : StrictExtremes c) :
    order_corners (fun i => c (σ i)) = order_corners c ∧
    ∀ (cv : CVOps) (img : Image),
      fix_perspective cv img (fun i => c (σ i)) = fix_perspective cv img c := by
  obtain ⟨h1, h2, h3, h4⟩ := h
  have horder : order_corners (fun i => c (σ i)) = order_corners c := by
    unfold order_corners
    simp only [OrderedQuad.mk.injEq]
    refine ⟨?_, ?_, ?_, ?_⟩
    · exact congrArg c (argmin4_perm (fun i => cornerSum (c i)) σ h1)
    · exact congrArg c (argmin4_perm (fun i => cornerDiff (c i)) σ h3)
    · exact congrArg c (argmax4_perm (fun i => cornerSum (c i)) σ h2)
    · exact congrArg c (argmax4_perm (fun i => cornerDiff (c i)) σ h4)
  refine ⟨horder, fun cv img => ?_⟩
  unfold fix_perspective
  rw [horder]

/-- C7 witness: a concrete quadrilateral with strict extremes, on which
swapping the first two corners leaves the ordered assignment unchanged. -/
theorem order_corners_perm_invariant_witness :
    StrictExtremes genericQuad ∧
      order_corners (fun i => genericQuad ((Equiv.swap 0 1) i)) = order_corners genericQuad :=
  ⟨by decide, (order_corners_perm_invariant genericQuad (Equiv.swap 0 1) (by decide)).1⟩

/-! ## Claim C5: the cleaner's output shape -/

/-- C5: for every input image, grayscale or 3-channel, and every behaviour
of the Sauvola threshold, `clean_up_image` returns a single-channel raster
(by type) whose height and width equal the input's spatial dimensions and
whose samples all fit in 8 bits. -/
theorem clean_up_image_shape (sauvola : Nat → GrayImg → Nat → Nat → ℚ) (image : Image) :
    (clean_up_image sauvola image).height = image.hgt ∧
    (clean_up_image sauvola image).width = image.wdt ∧
    ∀ x y, (clean_up_image sauvola image).pix x y ≤ 255 := by
  cases image <;> exact ⟨rfl, rfl, fun x y => Nat.sub_le 255 _⟩

/-! ## Claim C6: the cleaner's pixel pipeline -/

/-- C6: `clean_up_image` computes exactly the spec's pipeline — binarize a
pixel to 255 exactly when its grayscale intensity strictly exceeds the
Sauvola threshold of the 25-pixel window, then invert, erode once and
dilate once with the 2x2 all-ones element, and invert back. -/
theorem clean_up_image_matches_spec (sauvola : Nat → GrayImg → Nat → Nat → ℚ) (image : Image) :
    clean_up_image sauvola image = cleanerSpec sauvola image := by
  unfold clean_up_image cleanerSpec
  dsimp only
  have hb : img_as_ubyte (toGrayIfColor image).height (toGrayIfColor image).width
      (fun x y =>
        decide (((toGrayIfColor image).pix x y : ℚ) > sauvola 25 (toGrayIfColor image) x y)) =
      ⟨(toGrayIfColor image).height, (toGrayIfColor image).width,
        fun x y =>
          if ((toGrayIfColor image).pix x y : ℚ) > sauvola 25 (toGrayIfColor image) x y
          then 255 else 0⟩ := by
    unfold img_as_ubyte
    congr 1
    funext x y
    simp
  rw [hb]

/-! ## Claim C8: detector totality -/

/-- C8 counterexample: on a single-channel raster — allowed by the data
model, which makes the third channel axis optional — the detector's first
step, `cv2.cvtColor(img, COLOR_BGR2GRAY)`, raises, so the Corner Detector
does throw for this normal image. -/
theorem find_document_corners_gray_raises :
    find_document_corners trivialCV (Image.gray gray1) =
      .error (.cvError ("Invalid number of channels in input image")) := rfl

/-- C8 (amended): on every 3-channel raster, for every behaviour of the
numeric primitives, `find_document_corners` never throws: it returns
normally with either a quadrilateral of exactly 4 points or not-found. -/
theorem find_document_corners_total_on_color (cv : CVOps) (c : ColorImg) :
    ∃ r : Option Quad, find_document_corners cv (Image.color c) = .ok r :=
  ⟨_, rfl⟩

/-! ## Claim C1: the orchestrator never raises -/

/-- C1: the orchestrator violates its never-raises guarantee before any
fallback can fire — `process_image` converts the input with
`cv2.cvtColor(np.array(image), COLOR_RGB2BGR)` outside every `try` block
(src/processing.py line 96), and that call raises on a single-channel
input, whatever the three core stages would have done. -/
theorem process_image_raises_on_gray (s : Stages) :
    process_image s (Image.gray gray1) =
      .error (.cvError ("Invalid number of channels in input image")) := rfl

/-! ## Claim C2: the detector matches its specification -/

theorem scanCandidates_eq_find (cv : CVOps) (minArea : ℚ) (L : List Contour) :
    scanCandidates cv minArea L =
      (L.find? (acceptableContour cv minArea)).map
        (fun ct => reshape (cv.approxPolyDP ct (0.02 * cv.arcLength ct true) true)) := by
  induction L with
  | nil => rfl
  | cons c rest ih =>
    by_cases h1 : cv.contourArea c < minArea
    · have ha : acceptableContour cv minArea c = false := by
        unfold acceptableContour
        rw [decide_eq_false (not_le.2 h1)]
        simp
      rw [scanCandidates, if_pos h1, List.find?_cons_of_neg _ (by simp [ha]), ih]
    · by_cases h2 : cv.arcLength c true < 100
      · have ha : acceptableContour cv minArea c = false := by
          unfold acceptableContour
          rw [decide_eq_false (not_le.2 h2)]
          simp
        rw [scanCandidates, if_neg h1]
        dsimp only
        rw [if_pos h2, List.find?_cons_of_neg _ (by simp [ha]), ih]
      · by_cases h3 : (cv.approxPolyDP c (0.02 * cv.arcLength c true) true).length = 4
        · have ha : acceptableContour cv minArea c = true := by
            unfold acceptableContour
            rw [decide_eq_true (not_lt.1 h1), decide_eq_true (not_lt.1 h2)]
            simp [h3]
          rw [scanCandidates, if_neg h1]
          dsimp only
          rw [if_neg h2, if_pos h3, List.find?_cons_of_pos _ ha]
          rfl
        · have ha : acceptableContour cv minArea c = false := by
            unfold acceptableContour
            simp [h3]
          rw [scanCandidates, if_neg h1]
          dsimp only
          rw [if_neg h2, if_neg h3, List.find?_cons_of_neg _ (by simp [ha]), ih]

/-- C2: on every 3-channel raster, `find_document_corners` returns normally
with exactly the result the spec describes: grayscale, 5x5 blur, Canny
70/150, the 6 largest contours by descending area, and the simplified
polygon of the first candidate passing the area (10% of image area),
perimeter (100 px) and 4-vertex tests, else not found. -/
theorem find_document_corners_matches_spec (cv : CVOps) (c : ColorImg) :
    find_document_corners cv (Image.color c) = .ok (detectSpec cv c) := by
  have h : find_document_corners cv (Image.color c) =
      .ok (scanCandidates cv (((c.height * c.width : Nat) : ℚ) * 0.1)
        (((cv.findContours (cv.canny (cv.gaussianBlur 5 5 0 (bgrToGray c)) 70 150)).mergeSort
          (fun a b => decide (cv.contourArea b ≤ cv.contourArea a))).take 6)) := rfl
  rw [h, scanCandidates_eq_find]
  rfl

/-! ## Claim C10: the page-sequence operations -/

theorem ok_bind (a : α) (f : α → Except PyErr β) : (Except.ok a >>= f) = f a := rfl

theorem error_bind (e : PyErr) (f : α → Except PyErr β) :
    ((Except.error e : Except PyErr α) >>= f) = .error e := rfl

theorem pyIndex_coe (len n : Nat) : pyIndex len (n : Int) = if n < len then some n else none := by
  unfold pyIndex
  dsimp only
  rw [if_neg (by omega : ¬((n : Int) < 0))]
  by_cases h : n < len
  · rw [if_pos (by omega : (0 : Int) ≤ n ∧ (n : Int) < len), if_pos h]
    simp
  · rw [if_neg (by omega : ¬((0 : Int) ≤ n ∧ (n : Int) < len)), if_neg h]

theorem pyGet_coe (lst : List α) (n : Nat) :
    pyGet lst (n : Int) =
      if h : n < lst.length then .ok (lst.get ⟨n, h⟩) else .error .indexError := by
  unfold pyGet
  rw [pyIndex_coe]
  by_cases h : n < lst.length
  · rw [if_pos h, dif_pos h]
    dsimp only
    rw [List.get?_eq_get h]
  · rw [if_neg h, dif_neg h]

theorem pySet_coe (lst : List α) (n : Nat) (v : α) :
    pySet lst (n : Int) v =
      if n < lst.length then .ok (lst.set n v) else .error .indexError := by
  unfold pySet
  rw [pyIndex_coe]
  by_cases h : n < lst.length
  · rw [if_pos h, if_pos h]
  · rw [if_neg h, if_neg h]

/-- C10 counterexample: `move_image_up` on a one-element list at index 1
passes its `index > 0` guard and then reads `image_list[1]`, raising
`IndexError` — so the operations do not never-raise on out-of-range
indices. -/
theorem move_image_up_raises :
    move_image_up ([10] : List Nat) 1 = .error .indexError := rfl

/-- C10 (amended): for nonnegative indices the three operations behave as
claimed except for the raise: `move_image_up` leaves the list unchanged
when `index ≤ 0`, swaps `index - 1` with `index` when `0 < index < length`,
and raises `IndexError` when `0 < index` and `length ≤ index`;
`move_image_down` leaves the list unchanged when `length - 1 ≤ index` and
swaps `index` with `index + 1` when `0 ≤ index < length - 1`;
`remove_image` never raises — it removes position `index` when
`0 ≤ index < length` and otherwise returns the list unchanged. -/
theorem page_ops_characterization {α : Type} (lst : List α) (index : Int) :
    (index ≤ 0 → move_image_up lst index = .ok lst) ∧
    (0 < index → index < (lst.length : Int) →
      move_image_up lst index = .ok (swapAdj lst (index.toNat - 1))) ∧
    (0 < index → (lst.length : Int) ≤ index →
      move_image_up lst index = .error .indexError) ∧
    ((lst.length : Int) - 1 ≤ index → move_image_down lst index = .ok lst) ∧
    (0 ≤ index → index < (lst.length : Int) - 1 →
      move_image_down lst index = .ok (swapAdj lst index.toNat)) ∧
    (0 ≤ index → index < (lst.length : Int) →
      remove_image lst index = .ok (lst.eraseIdx index.toNat)) ∧
    (¬(0 ≤ index ∧ index < (lst.length : Int)) → remove_image lst index = .ok lst) := by
  refine ⟨?_, ?_, ?_, ?_, ?_, ?_, ?_⟩
  · intro h0
    rw [move_image_up, if_neg (by omega)]
  · intro h0 h1
    obtain ⟨n, rfl⟩ : ∃ n : Nat, index = (n : Int) :=
      ⟨index.toNat, (Int.toNat_of_nonneg (le_of_lt h0)).symm⟩
    have hn0 : 0 < n := by omega
    have hn1 : n < lst.length := by omega
    have hm : n - 1 < lst.length := by omega
    rw [move_image_up, if_pos h0,
      show (n : Int) - 1 = ((n - 1 : Nat) : Int) by omega,
      pyGet_coe, pyGet_coe, dif_pos hm, dif_pos hn1, ok_bind, ok_bind,
      pySet_coe, if_pos hn1, ok_bind, pySet_coe, List.length_set,
      if_pos hm]
    rw [show ((n : Int)).toNat - 1 = n - 1 by omega]
    unfold swapAdj
    rw [show n - 1 + 1 = n by omega, List.get?_eq_get hm, List.get?_eq_get hn1]
    exact congrArg Except.ok (List.set_comm _ _ lst (by omega : n ≠ n - 1))
  · intro h0 h1
    obtain ⟨n, rfl⟩ : ∃ n : Nat, index = (n : Int) :=
      ⟨index.toNat, (Int.toNat_of_nonneg (le_of_lt h0)).symm⟩
    have hn1 : lst.length ≤ n := by omega
    rw [move_image_up, if_pos h0,
      show (n : Int) - 1 = ((n - 1 : Nat) : Int) by omega,
      pyGet_coe]
    by_cases hm : n - 1 < lst.length
    · rw [dif_pos hm, ok_bind, pyGet_coe, dif_neg (by omega), error_bind]
    · rw [dif_neg hm, error_bind]
  · intro h0
    rw [move_image_down, if_neg (by omega)]
  · intro h0 h1
    obtain ⟨n, rfl⟩ : ∃ n : Nat, index = (n : Int) :=
      ⟨index.toNat, (Int.toNat_of_nonneg h0).symm⟩
    have hn1 : n + 1 < lst.length := by omega
    have hn2 : n < lst.length := by omega
    rw [move_image_down, if_pos (by omega),
      show (n : Int) + 1 = ((n + 1 : Nat) : Int) by omega,
      pyGet_coe, pyGet_coe, dif_pos hn1, dif_pos hn2, ok_bind, ok_bind,
      pySet_coe, if_pos hn2, ok_bind, pySet_coe, List.length_set, if_pos hn1]
    rw [show ((n : Int)).toNat = n by omega]
    unfold swapAdj
    rw [List.get?_eq_get hn2, List.get?_eq_get hn1]
  · intro h0 h1
    rw [remove_image, if_pos ⟨h0, h1⟩]
  · intro h0
    rw [remove_image, if_neg h0]

/-- C10 witness: the characterization evaluated on a 3-element list — an
in-range up-move, a blocked up-move, a raising up-move, an in-range
down-move, a blocked down-move, an in-range removal and a blocked removal
with a negative index. -/
theorem page_ops_characterization_witness :
    move_image_up ([10, 20, 30] : List Nat) 1 = .ok [20, 10, 30] ∧
    move_image_up ([10, 20, 30] : List Nat) 0 = .ok [10, 20, 30] ∧
    move_image_up ([10, 20, 30] : List Nat) 3 = .error .indexError ∧
    move_image_down ([10, 20, 30] : List Nat) 1 = .ok [10, 30, 20] ∧
    move_image_down ([10, 20, 30] : List Nat) 2 = .ok [10, 20, 30] ∧
    remove_image ([10, 20, 30] : List Nat) 1 = .ok [10, 30] ∧
    remove_image ([10, 20, 30] : List Nat) (-1) = .ok [10, 20, 30] := by
  refine ⟨?_, ?_, ?_, ?_, ?_, ?_, ?_⟩
  · rw [(page_ops_characterization ([10, 20, 30] : List Nat) 1).2.1 (by decide) (by decide)]
    rfl
  · exact (page_ops_characterization ([10, 20, 30] : List Nat) 0).1 (by decide)
  · exact (page_ops_characterization ([10, 20, 30] : List Nat) 3).2.2.1 (by decide) (by decide)
  · rw [(page_ops_characterization ([10, 20, 30] : List Nat) 1).2.2.2.2.1 (by decide) (by decide)]
    rfl
  · exact (page_ops_characterization ([10, 20, 30] : List Nat) 2).2.2.2.1 (by decide)
  · rw [(page_ops_characterization ([10, 20, 30] : List Nat) 1).2.2.2.2.2.1 (by decide) (by decide)]
    rfl
  · exact (page_ops_characterization ([10, 20, 30] : List Nat) (-1)).2.2.2.2.2.2 (by decide)

end Scanner
